import Mathlib

namespace OsqueryGo

/-- A JSON document as decoded by Go encoding/json into an interface value.
Numbers are modelled as integers: every numeric literal the osquery wire
protocol sends in the payloads covered here is integral (status codes and
constraint operators), and Go decodes such literals into float64 values that
represent them exactly. -/
inductive JVal where
  | null : JVal
  | boolean : Bool → JVal
  | num : Int → JVal
  | str : String → JVal
  | arr : List JVal → JVal
  | obj : List (String × JVal) → JVal

/-- Assignment into a Go map modelled as an association list: overwrite the
existing binding when the key is present (so a later duplicate key wins, as in
Go map assignment), otherwise append. Keys stay unique when built from `[]`. -/
def mapInsert {α : Type} (m : List (String × α)) (k : String) (v : α) :
    List (String × α) :=
  if m.any (fun kv => kv.1 == k) then
    m.map (fun kv => if kv.1 == k then (k, v) else kv)
  else m ++ [(k, v)]

/-- Go map lookup on the association-list model. -/
def mapLookup {α : Type} (m : List (String × α)) (k : String) : Option α :=
  (m.find? (fun kv => kv.1 == k)).map (fun kv => kv.2)

/-- Decoding a JSON object into a Go map: fields are folded left to right with
assignment, so for duplicate keys the final occurrence wins. -/
def objToMap (fields : List (String × JVal)) : List (String × JVal) :=
  fields.foldl (fun m kv => mapInsert m kv.1 kv.2) []

/-- Go reflect type name of a decoded interface value, as printed by the %T
verb of fmt (used by table.go in the message of `cannot parse type %T`). -/
def goTypeName : JVal → String
  | .null => "<nil>"
  | .boolean _ => "bool"
  | .num _ => "float64"
  | .str _ => "string"
  | .arr _ => "[]interface \x7b\x7d"
  | .obj _ => "map[string]interface \x7b\x7d"

/-- JSON value kind name used inside the decode errors of encoding/json
("json: cannot unmarshal number into ..."). -/
def goJsonKindName : JVal → String
  | .null => "null"
  | .boolean _ => "bool"
  | .num _ => "number"
  | .str _ => "string"
  | .arr _ => "array"
  | .obj _ => "object"

mutual

/-- Rendering of a decoded interface value by the %s verb of fmt, as used in
the message `expr should be string: %s` of table.go: a string prints as is,
while every other operand type is decorated as a bad-verb application (a nil
interface prints %!s(<nil>), a float64 prints %!s(float64=v) with v in the
shortest float notation, which for the integral numbers modelled here is the
plain decimal); composites recurse elementwise (fmt additionally sorts map
keys, which the association-list order stands in for). -/
def goSprint : JVal → String
  | .null => "%!s(<nil>)"
  | .boolean b => "%!s(bool=" ++ (if b then "true" else "false") ++ ")"
  | .num n => "%!s(float64=" ++ toString n ++ ")"
  | .str s => s
  | .arr xs => "[" ++ goSprintSpaced xs ++ "]"
  | .obj kvs => "map[" ++ goSprintFields kvs ++ "]"

def goSprintSpaced : List JVal → String
  | [] => ""
  | [x] => goSprint x
  | x :: xs => goSprint x ++ " " ++ goSprintSpaced xs

def goSprintFields : List (String × JVal) → String
  | [] => ""
  | [kv] => kv.1 ++ ":" ++ goSprint kv.2
  | kv :: kvs => kv.1 ++ ":" ++ goSprint kv.2 ++ " " ++ goSprintFields kvs

end

mutual

/-- Compact JSON text of a document, standing in for the raw bytes that
table.go echoes in `unexpected context list: %s` (string escaping of exotic
characters inside literals is not reproduced). -/
def jsonRender : JVal → String
  | .null => "null"
  | .boolean b => if b then "true" else "false"
  | .num n => toString n
  | .str s => "\"" ++ s ++ "\""
  | .arr xs => "[" ++ jsonRenderItems xs ++ "]"
  | .obj kvs => "\x7b" ++ jsonRenderFields kvs ++ "\x7d"

def jsonRenderItems : List JVal → String
  | [] => ""
  | [x] => jsonRender x
  | x :: xs => jsonRender x ++ "," ++ jsonRenderItems xs

def jsonRenderFields : List (String × JVal) → String
  | [] => ""
  | [kv] => "\"" ++ kv.1 ++ "\":" ++ jsonRender kv.2
  | kv :: kvs => "\"" ++ kv.1 ++ "\":" ++ jsonRender kv.2 ++ "," ++ jsonRenderFields kvs

end

/-- Largest value of the Go int type on a 64-bit platform. -/
def int64Max : Int := 9223372036854775807

/-- Smallest value of the Go int type on a 64-bit platform. -/
def int64Min : Int := -9223372036854775808

/-- Value of a list of decimal digit characters. -/
def digitsVal (cs : List Char) : Nat :=
  cs.foldl (fun n c => n * 10 + (c.toNat - 48)) 0

/-- A non-empty all-digit character list, or none. -/
def parseDigits (cs : List Char) : Option Nat :=
  if cs ≠ [] ∧ cs.all (fun c => c.isDigit) then some (digitsVal cs) else none

/-- strconv.Atoi: an optional sign followed by at least one decimal digit,
rejecting anything else and values outside the 64-bit int range. -/
def goAtoi (s : String) : Option Int :=
  let v : Option Int :=
    match s.data with
    | '+' :: rest => (parseDigits rest).map Int.ofNat
    | '-' :: rest => (parseDigits rest).map (fun n => -(Int.ofNat n))
    | cs => (parseDigits cs).map Int.ofNat
  v.bind (fun n => if n < int64Min ∨ int64Max < n then none else some n)

/-- ExtensionStatus from the generated thrift types: code, message (the uuid
field is irrelevant to the claims here). -/
structure ExtensionStatus where
  code : Int
  message : String
deriving DecidableEq, Repr

/-- A result row: map from column name to string value. -/
abbrev Row := List (String × String)

/-- ExtensionResponse from the generated thrift types: an optional status and
the response rows. -/
structure ExtensionResponse where
  status : Option ExtensionStatus
  response : List Row
deriving DecidableEq, Repr

namespace distributed

/-- Result from plugin/distributed/distributed.go: the status and rows for one
distributed query. -/
structure Result where
  queryName : String
  status : Int
  rows : List Row
deriving DecidableEq, Repr

/-- Decoding a JSON value into the Go field `Statuses map[string]string` of
the intermediate struct in parseResults: the value must be an object (or
null, which leaves the map untouched) and every member value must be a JSON
string (null leaves the zero value ""); any other member value aborts the
whole decode. -/
def decodeStringMap (acc : List (String × String)) : JVal →
    Except String (List (String × String))
  | .null => .ok acc
  | .obj fields =>
    fields.foldlM (fun m kv =>
      match kv.2 with
      | .str s => .ok (mapInsert m kv.1 s)
      | .null => .ok (mapInsert m kv.1 "")
      | v => .error ("json: cannot unmarshal " ++ goJsonKindName v ++
          " into Go value of type string")) acc
  | v => .error ("json: cannot unmarshal " ++ goJsonKindName v ++
      " into Go value of type map[string]string")

/-- Decoding a JSON value into the Go field `Queries map[string]interface` of
the intermediate struct in parseResults: the value must be an object (or
null); member values are kept as raw documents. -/
def decodeAnyMap (acc : List (String × JVal)) : JVal →
    Except String (List (String × JVal))
  | .null => .ok acc
  | .obj fields =>
    .ok (fields.foldl (fun m kv => mapInsert m kv.1 kv.2) acc)
  | v => .error ("json: cannot unmarshal " ++ goJsonKindName v ++
      " into Go value of type map[string]interface")

/-- The anonymous intermediate struct of parseResults. -/
structure Intermediate where
  queries : List (String × JVal)
  statuses : List (String × String)

/-- Decoding the writeResults payload document into the intermediate struct:
the document must be an object (or null); fields named queries and statuses
are decoded into the corresponding maps (a repeated field merges into the map
already decoded, as encoding/json does); unknown fields are ignored. -/
def decodeIntermediate : JVal → Except String Intermediate
  | .null => .ok ⟨[], []⟩
  | .obj fields =>
    fields.foldlM (fun im kv =>
      if kv.1 == "queries" then
        (decodeAnyMap im.queries kv.2).map (fun q => ⟨q, im.statuses⟩)
      else if kv.1 == "statuses" then
        (decodeStringMap im.statuses kv.2).map (fun st => ⟨im.queries, st⟩)
      else .ok im) (⟨[], []⟩ : Intermediate)
  | v => .error ("json: cannot unmarshal " ++ goJsonKindName v ++
      " into Go value of type struct")

/-- convertRow body of convertRows: the interface value must be a decoded
JSON object and every column value must be a string, else the errors of
distributed.go lines 109-118. -/
def convertRow : JVal → Except String Row
  | .obj fields =>
    fields.foldlM (fun r kv =>
      match kv.2 with
      | .str s => .ok (mapInsert r kv.1 s)
      | _ => .error ("invalid type for col \"" ++ kv.1 ++ "\"")) []
  | _ => .error "invalid row type for query"

/-- convertRows from distributed.go lines 106-124. -/
def convertRows (rows : List JVal) : Except String (List Row) :=
  rows.mapM convertRow

/-- Row extraction for one status entry in the loop of parseResults lines
145-165: a missing queries entry and a string entry both yield zero rows, an
array is converted row by row, anything else is `query type is not valid`. -/
def rowsForQuery : Option JVal → Except String (List Row)
  | none => .ok []
  | some (.str _) => .ok []
  | some (.arr xs) => convertRows xs
  | some _ => .error "query type is not valid"

/-- parseResults from distributed.go lines 126-170, over the decoded payload
document. Go iterates the statuses map in unspecified order; the model
iterates the association list in its canonical order, which is the insertion
order of the JSON fields. -/
def parseResults (doc : JVal) : Except String (List Result) := do
  let im ← decodeIntermediate doc
  im.statuses.mapM (fun kv => do
    match goAtoi kv.2 with
    | none => .error "invalid status"
    | some statVal => do
      let rows ← rowsForQuery (mapLookup im.queries kv.1)
      pure ⟨kv.1, statVal, rows⟩)

/-- The writeResults arm of Plugin.Call from distributed.go lines 200-224,
with the user callback abstracted as a function of the parsed results. -/
def callWriteResults (doc : JVal)
    (writer : List Result → Except String Unit) : ExtensionResponse :=
  match parseResults doc with
  | .error e => ⟨some ⟨1, "error unmarshalling results: " ++ e⟩, []⟩
  | .ok results =>
    match writer results with
    | .error e => ⟨some ⟨1, "error writing results: " ++ e⟩, []⟩
    | .ok _ => ⟨some ⟨0, "OK"⟩, []⟩

end distributed

namespace table

/-- Constraint from plugin/table/table.go: an operator (Go int) and an
expression. Operator(float64) conversion is the identity on the integral
numbers modelled here. -/
structure Constraint where
  operator : Int
  expression : String
deriving DecidableEq, Repr

/-- Phase one of parseConstraintList's second branch: unmarshalling the array
into a Go slice of maps requires every element to be an object (null leaves a
nil map, as encoding/json does); any other element fails the whole unmarshal,
producing the `unexpected context list` error. Duplicate keys inside an
element overwrite, final occurrence winning. -/
def asConstraintObjs : List JVal → Option (List (List (String × JVal)))
  | [] => some []
  | .obj kvs :: rest =>
    (asConstraintObjs rest).map (fun l => objToMap kvs :: l)
  | .null :: rest => (asConstraintObjs rest).map (fun l => [] :: l)
  | _ => none

/-- Expression extraction from one constraint map, table.go lines 310-318:
the expr member must be a string (a missing member is a nil interface, which
the %s verb prints as %!s(<nil>)). -/
def exprPart (c : List (String × JVal)) (op : Int) : Except String Constraint :=
  match mapLookup c "expr" with
  | some (.str e) => .ok ⟨op, e⟩
  | some v => .error ("expr should be string: " ++ goSprint v)
  | none => .error "expr should be string: %!s(<nil>)"

/-- Operator dispatch from one constraint map, table.go lines 296-308: a
string op goes through strconv.Atoi (pre-3.0 osquery), a number op is used
directly (osquery 3.0 and later), and any other type - including a missing
member, a nil interface - is `cannot parse type %T`. -/
def parseConstraintElem (c : List (String × JVal)) : Except String Constraint :=
  match mapLookup c "op" with
  | some (.str s) =>
    match goAtoi s with
    | some n => exprPart c n
    | none => .error ("parsing operator int: " ++ s)
  | some (.num n) => exprPart c n
  | some v => .error ("cannot parse type " ++ goTypeName v)
  | none => .error "cannot parse type <nil>"

/-- The loop of table.go lines 294-319: constraints are parsed in order and
the first failure aborts the call. -/
def parseConstraints : List (List (String × JVal)) →
    Except String (List Constraint)
  | [] => .ok []
  | c :: rest =>
    match parseConstraintElem c with
    | .error e => .error e
    | .ok x =>
      match parseConstraints rest with
      | .error e => .error e
      | .ok xs => .ok (x :: xs)

/-- parseConstraintList from table.go lines 279-321: a JSON string (or null,
which json.Unmarshal accepts as a no-op into a string) denotes the empty
list; an array is unmarshalled into constraint maps and each map is parsed;
any other document shape is `unexpected context list`. -/
def parseConstraintList (v : JVal) : Except String (List Constraint) :=
  match v with
  | .str _ => .ok []
  | .null => .ok []
  | .arr items =>
    match asConstraintObjs items with
    | none => .error ("unexpected context list: " ++ jsonRender v)
    | some objs => parseConstraints objs
  | _ => .error ("unexpected context list: " ++ jsonRender v)

end table

/-- Durations are modelled in milliseconds. showDuration renders the value
the way time.Duration prints whole-millisecond durations below one second
(the granularity exercised by the locker messages, e.g. 100ms, 200ms). -/
def showDuration (ms : Nat) : String := toString ms ++ "ms"

/-- locker from locker.go: a capacity-one channel plus the two wait bounds. -/
structure Locker where
  defaultTimeout : Nat
  maxWait : Nat
deriving DecidableEq, Repr

/-- NewLocker from locker.go lines 20-26. -/
def NewLocker (defaultTimeout maxWait : Nat) : Locker :=
  ⟨defaultTimeout, maxWait⟩

/-- Outcome of locker.Lock: the channel send won, ctx.Done fired, or the
timer fired. -/
inductive LockOutcome where
  | acquired : LockOutcome
  | ctxCanceled : String → LockOutcome
  | timedOut : String → LockOutcome
deriving DecidableEq, Repr

/-- The environment of one Lock call: at which instant the channel send
would succeed (none: not within the call), and at which instant ctx.Done
fires (deadline expiry or cancellation; none: never). -/
structure LockEnv where
  acquireAt : Option Nat
  ctxDoneAt : Option Nat
deriving DecidableEq, Repr

/-- locker.Lock from locker.go lines 29-56: the wait bound and the timeout
message are picked from whether ctx carries a deadline, then the select
resolves to the earliest of the three arms (the timer arm fires at the wait
bound). Go breaks ties between simultaneously ready arms randomly; the model
prefers the channel send, then ctx.Done - the claims hold under any
tie-break. The returned Nat is the instant at which Lock returns. -/
def lockWait (l : Locker) (hasDeadline : Bool) : Nat :=
  if hasDeadline then l.maxWait else l.defaultTimeout

/-- The message of the timer arm, locker.go lines 32 and 37, formatted with
the wait bound actually armed. -/
def lockTimeoutMsg (l : Locker) (hasDeadline : Bool) : String :=
  if hasDeadline then "timeout after maximum of " ++ showDuration l.maxWait
  else "timeout after " ++ showDuration l.defaultTimeout

def Lock (l : Locker) (hasDeadline : Bool) (env : LockEnv) (ctxErr : String) :
    Nat × LockOutcome :=
  let wait := lockWait l hasDeadline
  let aT := env.acquireAt.getD (wait + 1)
  let cT := env.ctxDoneAt.getD (wait + 1)
  if aT ≤ cT ∧ aT ≤ wait then (aT, .acquired)
  else if cT ≤ wait then (cT, .ctxCanceled ("context canceled: " ++ ctxErr))
  else (wait, .timedOut (lockTimeoutMsg l hasDeadline))

/-- The lock state after a Lock call: the channel holds a token exactly when
the send arm won (the caller then holds the lock). -/
def lockHeldAfter (l : Locker) (heldBefore : Bool) (hasDeadline : Bool)
    (env : LockEnv) (ctxErr : String) : Bool :=
  match (Lock l hasDeadline env ctxErr).2 with
  | .acquired => true
  | _ => heldBefore

/-- defaultWaitTime from client.go line 16 (200 ms). -/
def defaultWaitTime : Nat := 200

/-- defaultMaxWaitTime from client.go line 17 (1 minute). -/
def defaultMaxWaitTime : Nat := 60000

/-- The two ClientOption constructors of client.go (DefaultWaitTime,
MaxWaitTime), as data. -/
inductive ClientOption where
  | defaultWaitTimeOpt : Nat → ClientOption
  | maxWaitTimeOpt : Nat → ClientOption
deriving DecidableEq, Repr

/-- ExtensionManagerClient from client.go, restricted to the wait-time
configuration and the locker it constructs. -/
structure ExtensionManagerClient where
  waitTime : Nat
  maxWaitTime : Nat
  lock : Locker
deriving DecidableEq, Repr

/-- Application of one option, as the closures of client.go lines 34-46 do. -/
def applyClientOption (c : Nat × Nat) : ClientOption → Nat × Nat
  | .defaultWaitTimeOpt d => (d, c.2)
  | .maxWaitTimeOpt d => (c.1, d)

/-- NewClient from client.go lines 51-80: defaults, options in order, the
wait-time validation, then the locker; the transport dial (whose failure also
fails construction) is abstracted by dialOk. -/
def NewClient (opts : List ClientOption) (dialOk : Bool) :
    Except String ExtensionManagerClient :=
  let c := opts.foldl applyClientOption (defaultWaitTime, defaultMaxWaitTime)
  if c.2 < c.1 then .error "default wait time larger than max wait time"
  else if dialOk then .ok ⟨c.1, c.2, NewLocker c.1 c.2⟩
  else .error "opening socket transport"

/-- QueryRowsContext from client.go lines 220-236, as a function of the
outcome of the underlying QueryContext call (a transport-or-locker error, or
an ExtensionResponse). errors.Wrap renders as "msg: cause". -/
def QueryRowsContext (queryResult : Except String ExtensionResponse) :
    Except String (List Row) :=
  match queryResult with
  | .error e => .error ("transport error in query: " ++ e)
  | .ok res =>
    match res.status with
    | none => .error "query returned nil status"
    | some st =>
      if st.code ≠ 0 then .error ("query returned error: " ++ st.message)
      else .ok res.response

/-- QueryRowContext from client.go lines 246-258, as a function of the
outcome of QueryRowsContext: an error passes through unchanged; a row list of
length other than one is `expected 1 row, got N`; otherwise the single row is
returned. -/
def QueryRowContext (rowsResult : Except String (List Row)) :
    Except String Row :=
  match rowsResult with
  | .error e => .error e
  | .ok [r] => .ok r
  | .ok rs => .error ("expected 1 row, got " ++ toString rs.length)

namespace server

/-- The fields of ExtensionManagerServer that Shutdown reads or writes:
serverClient (none models a nil interface), serverClientShouldShutdown, the
thrift server pointer (serverRunning: s.server is non-nil), and the uuid.
Client handles are names (Nat) so that close effects identify the client. -/
structure ServerState where
  serverClient : Option Nat
  serverClientShouldShutdown : Bool
  serverRunning : Bool
  uuid : Nat
deriving DecidableEq, Repr

/-- Observable side effects of one Shutdown call, in program order. -/
inductive Effect where
  | deregisterCall : Nat → Effect
  | closeClient : Nat → Effect
  | stopServerAsync : Effect
deriving DecidableEq, Repr

/-- Outcome of running a Go function that can abort the goroutine. -/
inductive GoResult (α : Type) where
  | ok : α → GoResult α
  | panics : String → GoResult α
deriving DecidableEq, Repr

/-- The tail of Shutdown after the deregistration block, server.go lines
330-349: close the client, move the thrift server out and stop it on a
detached goroutine, then close the client again and nil the field when the
server constructed it. -/
def shutdownFinish (s : ServerState) (c : Nat) (err : Option String) :
    ServerState × Option String × List Effect :=
  let effects :=
    [Effect.deregisterCall s.uuid, Effect.closeClient c] ++
    (if s.serverRunning then [Effect.stopServerAsync] else []) ++
    (if s.serverClientShouldShutdown then [Effect.closeClient c] else [])
  (⟨if s.serverClientShouldShutdown then none else some c,
    s.serverClientShouldShutdown, false, s.uuid⟩, err, effects)

/-- ExtensionManagerServer.Shutdown from server.go lines 322-350.
The environment supplies the outcome of the DeregisterExtension RPC: an
error, or the returned status pointer (none models a nil *ExtensionStatus,
whose Code field access would abort). A nil serverClient interface aborts at
the method call on line 325. errors.Wrap of a nil error is nil, so a
successful deregistration with code 0 leaves err nil. -/
def Shutdown (s : ServerState)
    (dereg : Except String (Option ExtensionStatus)) :
    GoResult (ServerState × Option String × List Effect) :=
  match s.serverClient with
  | none => .panics "invalid memory address or nil pointer dereference"
  | some c =>
    match dereg with
    | .error e => .ok (shutdownFinish s c (some ("deregistering extension: " ++ e)))
    | .ok none => .panics "invalid memory address or nil pointer dereference"
    | .ok (some stat) =>
      let err :=
        if stat.code ≠ 0 then
          some ("status " ++ toString stat.code ++ " deregistering extension: " ++
            stat.message)
        else none
      .ok (shutdownFinish s c err)

end server

namespace traces

/-- The attribute-building loop of StartSpan, traces.go lines 28-34: indices
are consumed two at a time, the key at i is namespaced with osquery-go. and
the value is read at i+1. When keyVals has odd length the final iteration
reads one past the end of the slice, which aborts with an index-out-of-range
runtime error - modelled as none. -/
def buildAttrs : List String → Option (List (String × String))
  | [] => some []
  | [_] => none
  | k :: v :: rest =>
    (buildAttrs rest).map (fun l => ("osquery-go." ++ k, v) :: l)

/-- What the loop guarantees, as one predicate: odd inputs abort, even inputs
build attributes whose every key carries the osquery-go. prefix. -/
def attrsSpec (kvs : List String) : Prop :=
  (kvs.length % 2 = 1 → buildAttrs kvs = none) ∧
  (kvs.length % 2 = 0 → ∃ attrs, buildAttrs kvs = some attrs ∧
    ∀ p ∈ attrs, ∃ a b, p = ("osquery-go." ++ a, b))

end traces

/-- The writeResults payload of the spec scenario: queries query1 and query2
carry one row each, statuses cover query1, query2 and the absent query3. -/
def c6Doc : JVal :=
  .obj [("queries", .obj [
          ("query1", .arr [.obj [("iso_8601", .str "2017-07-10T22:08:40Z")]]),
          ("query2", .arr [.obj [("version", .str "2.4.0")]])]),
        ("statuses", .obj [("query1", .str "0"), ("query2", .str "0"),
          ("query3", .str "1")])]

/-- A writeResults payload whose only status is the empty string. -/
def emptyStatusDoc : JVal := .obj [("statuses", .obj [("query1", .str "")])]

/-- A writeResults payload whose only status is the raw JSON integer 0. -/
def rawIntStatusDoc : JVal := .obj [("statuses", .obj [("query1", .num 0)])]

/-- A writeResults payload whose only status is the quoted integer 23. -/
def quotedStatusDoc : JVal := .obj [("statuses", .obj [("query1", .str "23")])]

/-- A server that constructed its own client (as NewExtensionManagerServer
does when no client is injected), holding client handle 0 and uuid 7, with
the thrift server live. -/
def ownedClientServer : server.ServerState := ⟨some 0, true, true, 7⟩

/-- A server whose client was injected through WithClient (so
serverClientShouldShutdown stays false), holding client handle 5 and uuid 7,
with the thrift server live. -/
def injectedClientServer : server.ServerState := ⟨some 5, false, true, 7⟩

/-- The status a successful RPC returns. -/
def okStatus : ExtensionStatus := ⟨0, "OK"⟩

/-- Helper for the StartSpan loop: attrsSpec holds of every key-value list,
by two-step recursion mirroring the loop stride. -/
theorem attrs_helper : ∀ kvs, traces.attrsSpec kvs
  | [] => ⟨by simp, by intro h; exact ⟨[], rfl, by simp⟩⟩
  | [k] => ⟨fun h => rfl, by simp [traces.buildAttrs]⟩
  | k :: v :: rest => by
    obtain ⟨ho, he⟩ := attrs_helper rest
    constructor
    · intro h
      simp [List.length_cons] at h
      simp [traces.buildAttrs, ho (by omega)]
    · intro h
      simp [List.length_cons] at h
      obtain ⟨attrs, ha, hp⟩ := he (by omega)
      refine ⟨("osquery-go." ++ k, v) :: attrs,
        by simp [traces.buildAttrs, ha], ?_⟩
      intro p hmem
      rcases List.mem_cons.mp hmem with h1 | h1
      · exact ⟨k, v, by simp [h1]⟩
      · exact hp p h1

/-- Claim C1 (code_bug evidence): the distributed writeResults status parser
of src/plugin/distributed/distributed.go rejects statuses the claim - and the
repository's own tests (TestUnmarshalStatus) - say are accepted: an
empty-string status does not parse to 0 but fails strconv.Atoi, so Call
answers code 1 with `error unmarshalling results: invalid status`; a raw
JSON integer status fails the decode into map[string]string, another error;
only a quoted decimal status is accepted. -/
theorem c1_distributed_status_divergence :
    distributed.parseResults emptyStatusDoc = .error "invalid status" ∧
    (distributed.callWriteResults emptyStatusDoc (fun _ => .ok ())).status =
      some ⟨1, "error unmarshalling results: invalid status"⟩ ∧
    (∃ e, distributed.parseResults rawIntStatusDoc = .error e ∧
      e ≠ "invalid status") ∧
    distributed.parseResults quotedStatusDoc = .ok [⟨"query1", 23, []⟩] := by
  refine ⟨rfl, rfl, ⟨_, rfl, by decide⟩, rfl⟩

/-- Claim C2 (code_bug evidence): Shutdown is not idempotent in
src/server.go. After a first successful Shutdown of a server that owns its
client, serverClient is nil, and the unguarded method call on line 325 makes
a second Shutdown dereference a nil interface; with an injected client the
second call instead repeats the deregistration, so two deregistrations of the
same uuid can succeed. The repository's own TestShutdownBasic requires the
second call to return nil without aborting. -/
theorem c2_shutdown_not_idempotent :
    ∃ s1 eff1, server.Shutdown ownedClientServer (.ok (some okStatus)) =
        .ok (s1, none, eff1) ∧
      server.Shutdown s1 (.ok (some okStatus)) =
        .panics "invalid memory address or nil pointer dereference" ∧
      ∃ s2 eff2, server.Shutdown injectedClientServer (.ok (some okStatus)) =
          .ok (s2, none, eff2) ∧
        ∃ s3 eff3, server.Shutdown s2 (.ok (some okStatus)) =
            .ok (s3, none, eff3) ∧
          server.Effect.deregisterCall 7 ∈ eff2 ∧
          server.Effect.deregisterCall 7 ∈ eff3 := by
  refine ⟨_, _, rfl, rfl, _, _, rfl, _, _, rfl, ?_, ?_⟩ <;> decide

/-- Claim C3: locker.Lock waits at most defaultTimeout when the context has
no deadline and the timer arm then reports `timeout after <defaultTimeout>`;
with a deadline - ctx.Done firing at instant c, at latest the deadline - the
wait is at most min c maxWait and the timer arm reports `timeout after
maximum of <maxWait>`; when the send arm wins the lock is held. -/
theorem c3_locker_lock_bounds (l : Locker) (env : LockEnv) (ctxErr : String) :
    ((Lock l false env ctxErr).1 ≤ l.defaultTimeout ∧
      ∀ m, (Lock l false env ctxErr).2 = .timedOut m →
        m = "timeout after " ++ showDuration l.defaultTimeout) ∧
    (∀ c, env.ctxDoneAt = some c →
      (Lock l true env ctxErr).1 ≤ min c l.maxWait ∧
      ∀ m, (Lock l true env ctxErr).2 = .timedOut m →
        m = "timeout after maximum of " ++ showDuration l.maxWait) ∧
    (∀ held hasDeadline, (Lock l hasDeadline env ctxErr).2 = .acquired →
      lockHeldAfter l held hasDeadline env ctxErr = true) := by
  refine ⟨⟨?_, ?_⟩, fun c hC => ⟨?_, ?_⟩, fun held hasDeadline h => ?_⟩
  · unfold Lock
    cases hA : env.acquireAt <;> cases hC : env.ctxDoneAt <;>
      simp [hA, hC, lockWait] <;> split_ifs <;> simp_all <;> omega
  · intro m h
    dsimp only [Lock] at h
    split_ifs at h <;> simp_all [lockTimeoutMsg]
  · unfold Lock
    cases hA : env.acquireAt <;>
      simp [hA, hC, lockWait] <;> split_ifs <;> simp_all <;> omega
  · intro m h
    dsimp only [Lock] at h
    split_ifs at h <;> simp_all [lockTimeoutMsg]
  · unfold lockHeldAfter
    rw [h]

/-- Witness for C3 at the locker of the tests (default 100 ms, max 200 ms):
with no deadline the wait is bounded by 100 and the expiry message is
`timeout after 100ms`; with a deadline of 1000 the wait is bounded by
min 1000 200 and the expiry message is `timeout after maximum of 200ms`;
an immediate send yields the lock. -/
theorem c3_locker_lock_bounds_witness :
    (Lock ⟨100, 200⟩ false ⟨none, none⟩ "context deadline exceeded").1 ≤ 100 ∧
    "timeout after 100ms" = "timeout after " ++ showDuration 100 ∧
    (Lock ⟨100, 200⟩ true ⟨none, some 1000⟩ "x").1 ≤ min 1000 200 ∧
    "timeout after maximum of 200ms" =
      "timeout after maximum of " ++ showDuration 200 ∧
    lockHeldAfter ⟨100, 200⟩ false true ⟨some 0, some 5⟩ "x" = true :=
  ⟨(c3_locker_lock_bounds ⟨100, 200⟩ ⟨none, none⟩ "context deadline exceeded").1.1,
   (c3_locker_lock_bounds ⟨100, 200⟩ ⟨none, none⟩ "context deadline exceeded").1.2
     "timeout after 100ms" (by decide),
   ((c3_locker_lock_bounds ⟨100, 200⟩ ⟨none, some 1000⟩ "x").2.1 1000 rfl).1,
   ((c3_locker_lock_bounds ⟨100, 200⟩ ⟨none, some 1000⟩ "x").2.1 1000 rfl).2
     "timeout after maximum of 200ms" (by decide),
   (c3_locker_lock_bounds ⟨100, 200⟩ ⟨some 0, some 5⟩ "x").2.2 false true
     (by decide)⟩

/-- Claim C4: QueryRowsContext wraps an error of the underlying query as
`transport error in query`, maps a nil status to `query returned nil
status`, maps a non-zero status code to `query returned error: <message>`,
and otherwise returns the response rows unchanged. -/
theorem c4_queryRows_outcomes :
    (∀ e, QueryRowsContext (.error e) =
      .error ("transport error in query: " ++ e)) ∧
    (∀ rows, QueryRowsContext (.ok ⟨none, rows⟩) =
      .error "query returned nil status") ∧
    (∀ c m rows, c ≠ 0 → QueryRowsContext (.ok ⟨some ⟨c, m⟩, rows⟩) =
      .error ("query returned error: " ++ m)) ∧
    (∀ m rows, QueryRowsContext (.ok ⟨some ⟨0, m⟩, rows⟩) = .ok rows) := by
  refine ⟨fun e => rfl, fun rows => rfl, fun c m rows h => ?_, fun m rows => ?_⟩
  · simp [QueryRowsContext, h]
  · simp [QueryRowsContext]

/-- Witness for C4: a status of code 1 and message boom yields the wrapped
error. -/
theorem c4_queryRows_outcomes_witness :
    QueryRowsContext (.ok ⟨some ⟨1, "boom"⟩, []⟩) =
      .error ("query returned error: " ++ "boom") :=
  c4_queryRows_outcomes.2.2.1 1 "boom" [] (by decide)

/-- Claim C5: parseConstraintList accepts both historical QueryContext
encodings - a stringified op with string-encoded empty lists (pre-3.0) and a
numeric op with [] empty lists (3.0 and later) - yielding the same
constraints on equivalent inputs; an op of any other JSON type is `cannot
parse type <T>` and a non-string expr is `expr should be string: <v>`. -/
theorem c5_queryContext_encodings :
    (∀ s, table.parseConstraintList (.str s) = .ok []) ∧
    table.parseConstraintList (.arr []) = .ok [] ∧
    (∀ s n e, goAtoi s = some n →
      table.parseConstraintList
          (.arr [.obj [("op", .str s), ("expr", .str e)]]) =
        table.parseConstraintList
          (.arr [.obj [("op", .num n), ("expr", .str e)]]) ∧
      table.parseConstraintList
          (.arr [.obj [("op", .num n), ("expr", .str e)]]) = .ok [⟨n, e⟩]) ∧
    (∀ v e, (∀ t, v ≠ .str t) → (∀ m, v ≠ .num m) →
      table.parseConstraintList (.arr [.obj [("op", v), ("expr", e)]]) =
        .error ("cannot parse type " ++ goTypeName v)) ∧
    (∀ n v, (∀ t, v ≠ .str t) →
      table.parseConstraintList (.arr [.obj [("op", .num n), ("expr", v)]]) =
        .error ("expr should be string: " ++ goSprint v)) := by
  refine ⟨fun s => rfl, rfl, fun s n e h => ⟨?_, ?_⟩,
    fun v e hs hn => ?_, fun n v hs => ?_⟩
  · simp [table.parseConstraintList, table.asConstraintObjs, objToMap,
      mapInsert, mapLookup, table.parseConstraints, table.parseConstraintElem,
      table.exprPart, h]
  · simp [table.parseConstraintList, table.asConstraintObjs, objToMap,
      mapInsert, mapLookup, table.parseConstraints, table.parseConstraintElem,
      table.exprPart]
  · cases v with
    | str t => exact absurd rfl (hs t)
    | num m => exact absurd rfl (hn m)
    | _ =>
      simp [table.parseConstraintList, table.asConstraintObjs, objToMap,
        mapInsert, mapLookup, table.parseConstraints,
        table.parseConstraintElem, goTypeName]
  · cases v with
    | str t => exact absurd rfl (hs t)
    | _ =>
      simp [table.parseConstraintList, table.asConstraintObjs, objToMap,
        mapInsert, mapLookup, table.parseConstraints,
        table.parseConstraintElem, table.exprPart, goSprint]

/-- Witness for C5: op "2" and op 2 with expr x parse identically to the
Equals constraint; a boolean op and a numeric expr produce the two errors. -/
theorem c5_queryContext_encodings_witness :
    table.parseConstraintList
        (.arr [.obj [("op", .str "2"), ("expr", .str "x")]]) =
      table.parseConstraintList
        (.arr [.obj [("op", .num 2), ("expr", .str "x")]]) ∧
    table.parseConstraintList
        (.arr [.obj [("op", .num 2), ("expr", .str "x")]]) = .ok [⟨2, "x"⟩] ∧
    table.parseConstraintList
        (.arr [.obj [("op", .boolean true), ("expr", .str "x")]]) =
      .error ("cannot parse type " ++ goTypeName (.boolean true)) ∧
    table.parseConstraintList
        (.arr [.obj [("op", .num 2), ("expr", .num 3)]]) =
      .error ("expr should be string: " ++ goSprint (.num 3)) :=
  ⟨(c5_queryContext_encodings.2.2.1 "2" 2 "x" (by decide)).1,
   (c5_queryContext_encodings.2.2.1 "2" 2 "x" (by decide)).2,
   c5_queryContext_encodings.2.2.2.1 (.boolean true) (.str "x")
     (fun t h => JVal.noConfusion h) (fun m h => JVal.noConfusion h),
   c5_queryContext_encodings.2.2.2.2 2 (.num 3)
     (fun t h => JVal.noConfusion h)⟩

/-- Claim C6: on the spec scenario payload, parseResults yields exactly the
three results - query1 with status 0 and one row, query2 with status 0 and
one row, query3 with status 1 and zero rows - and in general a per-query
results entry that is a string literal or absent parses to zero rows rather
than an error. -/
theorem c6_writeResults_scenario :
    distributed.parseResults c6Doc = .ok [
      ⟨"query1", 0, [[("iso_8601", "2017-07-10T22:08:40Z")]]⟩,
      ⟨"query2", 0, [[("version", "2.4.0")]]⟩,
      ⟨"query3", 1, []⟩] ∧
    (∀ s, distributed.rowsForQuery (some (.str s)) = .ok []) ∧
    distributed.rowsForQuery none = .ok [] :=
  ⟨by rfl, fun s => rfl, rfl⟩

/-- Claim C7 (counterexample): Shutdown does not leave an injected client
unclosed - the unconditional Close on server.go line 330 closes it even when
serverClientShouldShutdown is false. -/
theorem c7_injected_client_closed_counterexample :
    ∃ s2 e eff, server.Shutdown injectedClientServer (.ok (some okStatus)) =
        .ok (s2, e, eff) ∧
      server.Effect.closeClient 5 ∈ eff := by
  refine ⟨_, _, _, rfl, ?_⟩
  decide

/-- Claim C7 (amended): Shutdown with a non-nil client always closes it once
after deregistration; when the server constructed the client it closes it a
second time and clears the field, and only then is the field cleared. -/
theorem c7_close_semantics (s : server.ServerState) (c : Nat)
    (dereg : Except String (Option ExtensionStatus))
    (h : s.serverClient = some c) (hd : dereg ≠ .ok none) :
    ∃ s2 e eff, server.Shutdown s dereg = .ok (s2, e, eff) ∧
      eff.count (server.Effect.closeClient c) =
        (if s.serverClientShouldShutdown then 2 else 1) ∧
      s2.serverClient =
        (if s.serverClientShouldShutdown then none else some c) := by
  cases dereg with
  | error e =>
    refine ⟨_, _, _, by rw [server.Shutdown, h], ?_, ?_⟩ <;>
      simp [server.shutdownFinish, List.count_append] <;>
      split_ifs <;> simp [List.count_cons]
  | ok stat =>
    cases stat with
    | none => exact absurd rfl hd
    | some st =>
      refine ⟨_, _, _, by rw [server.Shutdown, h], ?_, ?_⟩ <;>
        simp [server.shutdownFinish, List.count_append] <;>
        split_ifs <;> simp [List.count_cons]

/-- Witness for C7 amended: the injected-client server gets exactly one close
of client 5 and its client field survives. -/
theorem c7_close_semantics_witness :
    ∃ s2 e eff, server.Shutdown injectedClientServer (.ok (some okStatus)) =
        .ok (s2, e, eff) ∧
      eff.count (server.Effect.closeClient 5) =
        (if injectedClientServer.serverClientShouldShutdown then 2 else 1) ∧
      s2.serverClient =
        (if injectedClientServer.serverClientShouldShutdown then none
         else some 5) :=
  c7_close_semantics injectedClientServer 5 (.ok (some okStatus)) rfl
    (by simp)

/-- Claim C8: NewClient rejects a default wait time larger than the max wait
time at construction, and accepts the configuration otherwise (given the
transport dial succeeds), building the locker from the two bounds. -/
theorem c8_newClient_validation :
    (∀ dw mw dialOk, mw < dw →
      NewClient [.defaultWaitTimeOpt dw, .maxWaitTimeOpt mw] dialOk =
        .error "default wait time larger than max wait time") ∧
    (∀ dw mw, dw ≤ mw →
      NewClient [.defaultWaitTimeOpt dw, .maxWaitTimeOpt mw] true =
        .ok ⟨dw, mw, NewLocker dw mw⟩) := by
  refine ⟨fun dw mw dialOk h => ?_, fun dw mw h => ?_⟩
  · simp [NewClient, applyClientOption, h]
  · simp [NewClient, applyClientOption, Nat.not_lt.mpr h]

/-- Witness for C8: 300 over 200 fails construction, 100 under 200
succeeds. -/
theorem c8_newClient_validation_witness :
    NewClient [.defaultWaitTimeOpt 300, .maxWaitTimeOpt 200] true =
      .error "default wait time larger than max wait time" ∧
    NewClient [.defaultWaitTimeOpt 100, .maxWaitTimeOpt 200] true =
      .ok ⟨100, 200, NewLocker 100 200⟩ :=
  ⟨c8_newClient_validation.1 300 200 true (by decide),
   c8_newClient_validation.2 100 200 (by decide)⟩

/-- Claim C9: QueryRowContext returns the single row exactly when
QueryRowsContext succeeded with one row, reports `expected 1 row, got N`
when it succeeded with N different from 1, and passes an error through
unchanged. -/
theorem c9_queryRow_exactly_one :
    (∀ r, QueryRowContext (.ok [r]) = .ok r) ∧
    (∀ rows, rows.length ≠ 1 → QueryRowContext (.ok rows) =
      .error ("expected 1 row, got " ++ toString rows.length)) ∧
    (∀ e, QueryRowContext (.error e) = .error e) := by
  refine ⟨fun r => rfl, fun rows h => ?_, fun e => rfl⟩
  match rows with
  | [] => rfl
  | [r] => exact absurd rfl h
  | a :: b :: rest => rfl

/-- Witness for C9: two rows make QueryRowContext report
`expected 1 row, got 2`. -/
theorem c9_queryRow_exactly_one_witness :
    QueryRowContext (.ok ([[("1", "1")], [("1", "1")]] : List Row)) =
      .error ("expected 1 row, got " ++
        toString ([[("1", "1")], [("1", "1")]] : List Row).length) :=
  c9_queryRow_exactly_one.2.1 [[("1", "1")], [("1", "1")]] (by decide)

/-- Claim C10: the StartSpan attribute loop aborts with an index out of
range exactly on odd-length keyVals, and on even-length keyVals it returns
attributes whose every key is prefixed with osquery-go. -/
theorem c10_startSpan_attrs : ∀ kvs : List String,
    (kvs.length % 2 = 1 → traces.buildAttrs kvs = none) ∧
    (kvs.length % 2 = 0 → ∃ attrs, traces.buildAttrs kvs = some attrs ∧
      ∀ p ∈ attrs, ∃ a b, p = ("osquery-go." ++ a, b)) :=
  fun kvs => attrs_helper kvs

/-- Witness for C10: a single dangling key aborts; one pair builds the
prefixed attribute. -/
theorem c10_startSpan_attrs_witness :
    traces.buildAttrs ["solo"] = none ∧
    ∃ attrs, traces.buildAttrs ["k", "v"] = some attrs ∧
      ∀ p ∈ attrs, ∃ a b, p = ("osquery-go." ++ a, b) :=
  ⟨(c10_startSpan_attrs ["solo"]).1 (by decide),
   (c10_startSpan_attrs ["k", "v"]).2 (by decide)⟩

end OsqueryGo
